import Mathlib

/-!
Verification development for the JVM performance bottleneck diagnostician.

The Python sources under `src/jvm_perf_agent/` are embedded shallowly:
Python floats become exact rationals (`ℚ`), Python ints become `ℤ`/`ℕ`,
dictionaries become structures with `Option` fields, and fallible parsing
becomes `Option`/`Except`.  The embedding follows the stdlib ("fallback")
code paths of the parsers, which are the fully specified manual
implementations in the source (the pandas path delegates to an external
library and is not algorithmic source code of this repository).
-/

namespace JvmPerf

/-- Truncation toward zero: models Python `int(x)` applied to a number. -/
def pyTrunc (q : ℚ) : ℤ := if 0 ≤ q then ⌊q⌋ else ⌈q⌉

/-- Round to the nearest integer with ties to even, the behaviour of
Python's built-in `round` on an exact value. -/
def roundHalfEven (x : ℚ) : ℤ :=
  if x - ⌊x⌋ < 1/2 then ⌊x⌋
  else if 1/2 < x - ⌊x⌋ then ⌊x⌋ + 1
  else if ⌊x⌋ % 2 = 0 then ⌊x⌋ else ⌊x⌋ + 1

/-- Models Python `round(x, 3)` (used pervasively by both parsers), as
round-half-to-even at the third decimal. -/
def round3 (x : ℚ) : ℚ := (roundHalfEven (x * 1000) : ℚ) / 1000

/-- Python `max` over a possibly-empty list, with an explicit default for
the guarded empty case (`max(l) if l else d`). -/
def pyMax {α : Type*} [LinearOrder α] (d : α) : List α → α
  | [] => d
  | x :: xs => xs.foldl max x

/-- Python `min` over a possibly-empty list, with an explicit default. -/
def pyMin {α : Type*} [LinearOrder α] (d : α) : List α → α
  | [] => d
  | x :: xs => xs.foldl min x

/-- Numeric value of a list of decimal digit characters, most significant
first. -/
def digitsToNat (cs : List Char) : ℕ := cs.foldl (fun acc c => acc * 10 + (c.toNat - 48)) 0

/-- Splits a character list at every occurrence of `sep` (the splitting
primitive behind the line and cell decomposition; structurally recursive
so that concrete inputs evaluate inside the kernel). -/
def splitOnChar (sep : Char) : List Char → List (List Char)
  | [] => [[]]
  | c :: cs =>
    match splitOnChar sep cs with
    | [] => [[c]]
    | g :: gs => if c = sep then [] :: g :: gs else (c :: g) :: gs

/-- Leading and trailing whitespace removed: models Python `str.strip()`. -/
def trimChars (cs : List Char) : List Char :=
  ((cs.dropWhile Char.isWhitespace).reverse.dropWhile Char.isWhitespace).reverse

/-- Models Python `str.strip()` on a string. -/
def pyStrip (s : String) : String := String.mk (trimChars s.data)

/-- Models Python `str.lower()` (ASCII case folding). -/
def pyLower (s : String) : String := String.mk (s.data.map Char.toLower)

/-- Models Python `float(s)` on a string: strips whitespace, then parses an
optional-sign plain decimal literal.  (Exponent forms, underscores and
`inf`/`nan`, which no claim exercises, are not modelled and yield `none`.)
Returns `none` exactly when Python's `float` would raise `ValueError` on
the modelled literal forms. -/
def pyFloat? (s : String) : Option ℚ :=
  let body := trimChars s.data
  let sgn : ℚ := if body.head? = some '-' then -1 else 1
  let digitsPart := if body.head? = some '-' ∨ body.head? = some '+' then body.drop 1 else body
  if digitsPart.contains '.' then
    let ip := digitsPart.takeWhile (fun c => c != '.')
    let fp := (digitsPart.dropWhile (fun c => c != '.')).drop 1
    if fp.contains '.' then none
    else if ip.all Char.isDigit ∧ fp.all Char.isDigit ∧ (ip ≠ [] ∨ fp ≠ []) then
      some (sgn * ((digitsToNat ip : ℚ) + (digitsToNat fp : ℚ) / ((10 : ℚ) ^ fp.length)))
    else none
  else if digitsPart.all Char.isDigit ∧ digitsPart ≠ [] then
    some (sgn * (digitsToNat digitsPart : ℚ))
  else none

/-- Embeds `_percentile` from `tools/jmeter_parser.py`: linear-interpolation
percentile.  Python's negative list indexing (reachable only for `q`
outside `[0,100]`, which no caller and no claim uses) is not modelled:
indices are clamped via `Int.toNat`. -/
def _percentile (vals : List ℚ) (q : ℚ) : ℚ :=
  if vals = [] then 0
  else
    let vsSorted := vals.insertionSort (· ≤ ·)
    let k : ℚ := ((vals.length - 1 : ℕ) : ℚ) * (q / 100)
    let f : ℤ := ⌊k⌋
    let c : ℤ := ⌈k⌉
    if f = c then vsSorted.getD (pyTrunc k).toNat 0
    else vsSorted.getD f.toNat 0 * ((c : ℚ) - k) + vsSorted.getD c.toNat 0 * (k - (f : ℚ))

/-- One normalized observation, the element of the `parsed` list built by
the row loop of `parse_jmeter_csv` (`{"ts": ..., "elapsed": ..., "success": ...}`). -/
structure ParsedObs where
  ts : Option ℤ
  elapsed : ℚ
  success : Option Bool

deriving DecidableEq, Repr

/-- Overall statistics record (`overall_stats`) of `parse_jmeter_csv`. -/
structure OverallStats where
  count : ℕ
  avg_ms : ℚ
  p95_ms : ℚ
  p99_ms : ℚ
  error_rate_pct : ℚ
  throughput_tps : ℚ

deriving DecidableEq, Repr

/-- One 10-second aggregation window (`time_series` element) of
`parse_jmeter_csv`. -/
structure TimeBucket where
  timestamp_ms : ℤ
  tps : ℚ
  p95_ms : ℚ
  count : ℕ

deriving DecidableEq, Repr

/-- Result of `parse_jmeter_csv`; `overall_stats = none` models the empty
dict `{}` returned for input with no rows. -/
structure JmeterResult where
  overall_stats : Option OverallStats
  time_series : List TimeBucket

deriving DecidableEq, Repr

/-- Embeds `_choose_column`: build `{c.strip().lower(): c}` (a later column
overwrites an earlier one with the same normalized name, hence `getLast?`)
and return the original name of the first candidate found. -/
def _choose_column (columns : List String) (candidates : List String) : Option String :=
  candidates.findSome? fun cand =>
    (columns.filter (fun c => pyLower (pyStrip c) == pyLower cand)).getLast?

/-- A CSV data row as `csv.DictReader` exposes it: cells positionally
aligned with the header, `none` for a missing trailing cell (DictReader's
`restval=None`). -/
abbrev CsvRow := List (Option String)

/-- Value of column `col` in a row: models `r.get(col)` on a DictReader
row (the dict maps each header name to the cell at its position; for
duplicate header names the later position wins, as in a dict build). -/
def cellOf (header : List String) (row : CsvRow) (col : String) : Option String :=
  match header.reverse.findIdx? (fun c => c == col) with
  | none => none
  | some ridx => row.getD (header.length - 1 - ridx) none

/-- Models `float(r.get(elapsed_col, 0) or 0)` guarded by `try/except`:
a missing or `None` or empty cell is the falsy `0`; otherwise the string
must parse as a float, and a parse failure skips the row (`none`). -/
def rowElapsed? (c : Option String) : Option ℚ :=
  match c with
  | none => some 0
  | some s => if s = "" then some 0 else pyFloat? s

/-- Models the timestamp extraction: `if ts_col and r.get(ts_col):` then
`ts = int(float(...))` with a `try/except` that resets `ts` to `None`. -/
def rowTs? (c : Option String) : Option ℤ :=
  match c with
  | none => none
  | some s => if s = "" then none else (pyFloat? s).map pyTrunc

/-- Models the success extraction: present cells are stringified and
compared (case-insensitively, stripped) against the falsy markers. -/
def rowSuccess? (c : Option String) : Option Bool :=
  match c with
  | none => none
  | some s => some (!(["false", "0", "no", "f"].contains (pyLower (pyStrip s))))

/-- The row loop of the csv fallback in `parse_jmeter_csv` (lines 182-197):
a row whose elapsed cell fails to parse is skipped wholesale (`continue`);
otherwise its `ts`/`elapsed`/`success` fields are extracted. -/
def parsedObsOf (header : List String) (ecol : String) (tcol : Option String)
    (scol : Option String) (rows : List CsvRow) : List ParsedObs :=
  rows.filterMap fun r =>
    (rowElapsed? (cellOf header r ecol)).map fun e =>
      { ts := tcol.bind fun tc => rowTs? (cellOf header r tc)
        elapsed := e
        success := scol.bind fun sc => rowSuccess? (cellOf header r sc) }

/-- Embeds the overall-statistics computation of the csv fallback
(lines 199-212 and 230-237 of `tools/jmeter_parser.py`). -/
def overallOf (parsed : List ParsedObs) : OverallStats :=
  let elapsedVals := parsed.map (·.elapsed)
  let count := elapsedVals.length
  let avg : ℚ := if count ≠ 0 then elapsedVals.sum / count else 0
  let p95 : ℚ := if count ≠ 0 then _percentile (elapsedVals.insertionSort (· ≤ ·)) 95 else 0
  let p99 : ℚ := if count ≠ 0 then _percentile (elapsedVals.insertionSort (· ≤ ·)) 99 else 0
  let failures := (parsed.filter (fun p => p.success = some false)).length
  let errorRate : ℚ := if count > 0 then ((failures : ℚ) / count) * 100 else 0
  let tsValues := parsed.filterMap (·.ts)
  let tput : ℚ :=
    if tsValues.length > 1 then
      round3 ((count : ℚ) / max 1 (((pyMax 0 tsValues - pyMin 0 tsValues : ℤ) : ℚ) / 1000))
    else 0
  { count := count
    avg_ms := round3 avg
    p95_ms := round3 p95
    p99_ms := round3 p99
    error_rate_pct := round3 errorRate
    throughput_tps := tput }

/-- Bucket key of a timestamp: `(ts // 10000) * 10000` (Python floor
division). -/
def bucketStart (ts : ℤ) : ℤ := ts.fdiv 10000 * 10000

/-- Elapsed values landing in the 10-second window starting at `b`, in
input order (the `buckets.setdefault(b, []).append(...)` dict). -/
def bucketVals (parsed : List ParsedObs) (b : ℤ) : List ℚ :=
  parsed.filterMap fun p =>
    match p.ts with
    | none => none
    | some ts => if bucketStart ts = b then some p.elapsed else none

/-- The keys of the bucket dict, iterated as `sorted(buckets.keys())`. -/
def bucketKeysOf (parsed : List ParsedObs) : List ℤ :=
  (((parsed.filterMap (·.ts)).map bucketStart).dedup).insertionSort (· ≤ ·)

/-- Embeds the time-series computation of the csv fallback
(lines 214-228 of `tools/jmeter_parser.py`). -/
def timeSeriesOf (parsed : List ParsedObs) : List TimeBucket :=
  (bucketKeysOf parsed).map fun b =>
    let vals := bucketVals parsed b
    let cnt := vals.length
    let p95b : ℚ := if cnt ≠ 0 then _percentile (vals.insertionSort (· ≤ ·)) 95 else 0
    { timestamp_ms := b
      tps := round3 ((cnt : ℚ) / 10)
      p95_ms := round3 p95b
      count := cnt }

/-- Embeds the csv fallback of `parse_jmeter_csv` from the point where the
DictReader rows are available: empty row list short-circuits to the empty
result, a missing elapsed column raises `RuntimeError`, otherwise the row
loop and the aggregations run. -/
def parse_rows (header : List String) (rows : List CsvRow) : Except String JmeterResult :=
  if rows = [] then .ok { overall_stats := none, time_series := [] }
  else
    match _choose_column header ["elapsed", "responsetime", "latency"] with
    | none => .error "Could not find 'elapsed' column in JMeter CSV"
    | some ecol =>
      let tcol := _choose_column header ["timeStamp", "timestamp", "time_stamp", "time"]
      let scol := _choose_column header ["success"]
      let parsed := parsedObsOf header ecol tcol scol rows
      .ok { overall_stats := some (overallOf parsed), time_series := timeSeriesOf parsed }

/-- Non-blank lines of the input text (`[l for l in text.splitlines() if
l.strip()]`; line splitting modelled on `\n`). -/
def linesOf (text : String) : List String :=
  ((splitOnChar '\n' text.data).map String.mk).filter (fun l => pyStrip l ≠ "")

/-- Embeds `parse_jmeter_csv` on raw CSV text (the path-is-not-a-file
branch followed by the csv-module fallback): no non-blank line yields the
empty result before any column check; otherwise the first line is the
header and each further line is comma-split into cells. -/
def parse_jmeter_csv (text : String) : Except String JmeterResult :=
  match linesOf text with
  | [] => .ok { overall_stats := none, time_series := [] }
  | h :: rest =>
    parse_rows ((splitOnChar ',' h.data).map String.mk)
      (rest.map fun l => ((splitOnChar ',' l.data).map String.mk).map some)

/-- A JSON leaf value as far as `float(...)` conversion is concerned:
a number or a string. -/
inductive PyVal where
  | num (q : ℚ)
  | str (s : String)

deriving DecidableEq, Repr

/-- Python truthiness of a `PyVal` (`0`, `0.0` and `""` are falsy). -/
def truthyV : PyVal → Bool
  | .num q => q != 0
  | .str s => s != ""

/-- Models `float(v)` on a JSON leaf value, guarded by `try/except`. -/
def pyFloatV? : PyVal → Option ℚ
  | .num q => some q
  | .str s => pyFloat? s

/-- Models a two-step Python `or`-chain on optional values: the first
truthy operand wins, otherwise the second operand is returned as-is
(even when falsy or absent). -/
def pyOrV (a b : Option PyVal) : Option PyVal :=
  match a with
  | some v => if truthyV v then some v else b
  | none => b

/-- Models `int(a or b or 0)` on two optional integer fields: the first
nonzero (truthy) present value, else 0. -/
def pyOrZ (a b : Option ℤ) : ℤ :=
  match a with
  | some x => if x ≠ 0 then x else (match b with | some y => y | none => 0)
  | none => match b with | some y => y | none => 0

/-- One element of `gc.events` in the telemetry JSON, restricted to the
keys the parser reads.  Pause-like values are modelled as numbers (the
claims exercise no string-valued pauses). -/
structure GCEventIn where
  ts_ms : Option ℚ
  pause_ms : Option ℚ
  duration_ms : Option ℚ
  pause : Option ℚ

deriving DecidableEq, Repr

/-- One element of `heap.samples`, restricted to the keys the duration
inference reads. -/
structure HeapSampleIn where
  ts_ms : Option ℚ

deriving DecidableEq, Repr

/-- The `cpu` section of the telemetry JSON: absent (or any falsy value,
which `data.get("cpu") or {}` collapses to the empty dict), a bare
scalar, or a dict with the three recognized keys. -/
inductive CpuIn where
  | absent
  | scalar (v : PyVal)
  | dict (system_pct process_pct cpu_pct : Option PyVal)

deriving DecidableEq, Repr

/-- Telemetry input to `parse_jvm_stats` after JSON decoding, restricted
to the fields the parser reads (heap occupancy values, which only feed
`heap_trend` — a record no claim mentions — are omitted). -/
structure JvmInput where
  test_start_ms : Option ℤ
  start_ms : Option ℤ
  test_end_ms : Option ℤ
  end_ms : Option ℤ
  gc_events : List GCEventIn
  total_gc_count : Option ℤ
  heap_samples : List HeapSampleIn
  cpu : CpuIn

deriving DecidableEq, Repr

/-- GC summary record returned by `parse_jvm_stats`. -/
structure GCSummary where
  total_gc_count : ℤ
  total_pause_ms : ℚ
  max_pause_ms : ℚ
  gc_overhead_pct : ℚ
  test_duration_s : ℚ

deriving DecidableEq, Repr

/-- Embeds the test-duration computation of `parse_jvm_stats`
(lines 59-86 of `tools/jvm_parser.py`): the declared end−start is used
only when `start_ms and end_ms and end_ms > start_ms` — i.e. both keys
truthy (present and nonzero) and end after start; otherwise the span of
all heap-sample and GC-event timestamps, 0 when none exist. -/
def durationOf (d : JvmInput) : ℚ :=
  let startMs := pyOrZ d.test_start_ms d.start_ms
  let endMs := pyOrZ d.test_end_ms d.end_ms
  if startMs ≠ 0 ∧ endMs ≠ 0 ∧ endMs > startMs then ((endMs - startMs : ℤ) : ℚ) / 1000
  else
    let tss := (d.heap_samples.map (·.ts_ms)).reduceOption
      ++ (d.gc_events.map (·.ts_ms)).reduceOption
    match tss with
    | [] => 0
    | t :: ts =>
      let sTs := pyMin t (t :: ts)
      let eTs := pyMax t (t :: ts)
      if eTs > sTs then (eTs - sTs) / 1000 else 0

/-- Pause duration of one GC event: `pause_ms` when present (`is None`
check, so an explicit 0 is kept), else `duration_ms or pause`
(truthiness chain), `none` when nothing parseable remains. -/
def eventPause? (ev : GCEventIn) : Option ℚ :=
  match ev.pause_ms with
  | some p => some p
  | none =>
    match ev.duration_ms with
    | some dv => if dv = 0 then ev.pause else some dv
    | none => ev.pause

/-- Embeds the GC-summary computation of `parse_jvm_stats`
(lines 88-114 of `tools/jvm_parser.py`). -/
def gc_summary_of (d : JvmInput) : GCSummary :=
  let events := d.gc_events
  let totalCount := pyOrZ d.total_gc_count (some (events.length : ℤ))
  let pauses := events.filterMap eventPause?
  let total := pauses.sum
  let maxP := pyMax 0 pauses
  let dur := durationOf d
  let overhead : ℚ := if dur > 0 then round3 (total / (dur * 1000) * 100) else 0
  { total_gc_count := totalCount
    total_pause_ms := round3 total
    max_pause_ms := round3 maxP
    gc_overhead_pct := overhead
    test_duration_s := round3 dur }

/-- The CPU percentage candidate extracted by lines 150-156 of
`tools/jvm_parser.py` (`cpu.get("system_pct") or cpu.get("process_pct")
or cpu.get("cpu_pct")`, or a bare truthy scalar). -/
def cpuPct? : CpuIn → Option PyVal
  | .absent => none
  | .scalar v => if truthyV v then some v else none
  | .dict s p c => pyOrV (pyOrV s p) c

/-- The CPU value after `float(cpu_pct) if cpu_pct is not None else None`
with its `try/except` (lines 157-160). -/
def cpuVal? (c : CpuIn) : Option ℚ := (cpuPct? c).bind pyFloatV?

/-- Embeds the CPU-flag thresholds of `parse_jvm_stats` (lines 162-171). -/
def cpu_flag_of (c : CpuIn) : String :=
  match cpuVal? c with
  | none => "unknown"
  | some v => if v < 30 then "low" else if v < 70 then "medium" else "high"

/-- Result of `parse_jvm_stats` restricted to the records the claims
mention (`heap_trend` is not modelled; no claim involves it). -/
structure JvmResult where
  gc_summary : GCSummary
  cpu_flag : String

deriving DecidableEq, Repr

/-- Embeds `parse_jvm_stats` on decoded telemetry input. -/
def parse_jvm_stats (d : JvmInput) : JvmResult :=
  { gc_summary := gc_summary_of d, cpu_flag := cpu_flag_of d.cpu }

/-- The `jvm_stats` argument of `diagnose_performance`: the GC summary
dict may be absent/empty (`jvm_stats.get("gc_summary") or {}`). -/
structure DiagJvmStats where
  gc_summary : Option GCSummary
  cpu_flag : String

deriving DecidableEq, Repr

/-- The `context` argument of `diagnose_performance`, restricted to the
key that influences classification (`framework`/`jdk` only select extra
recommendation strings). -/
structure DiagContext where
  sla_ms : Option ℚ

deriving DecidableEq, Repr

/-- Embeds the plateau detection of `diagnose_performance`
(lines 72-81 of `diagnosis.py`). -/
def computePlateau (time_series : List TimeBucket) : Bool :=
  match time_series with
  | [] => false
  | b :: bs =>
    let tpsVals := (b :: bs).map (·.tps)
    let maxTps := pyMax 0 tpsVals
    if maxTps > 0 then decide ((tpsVals.filter (fun v => v ≥ (9/10) * maxTps)).length ≥ 3)
    else false

/-- Embeds the classification computed by `diagnose_performance`
(lines 37-119 of `diagnosis.py`); findings and recommendations, which no
claim mentions, are not modelled.  Each rule is a separate assignment to
the mutable `classification` variable, faithfully sequenced. -/
def diagnose_performance (jmeter_stats : JmeterResult) (jvm_stats : DiagJvmStats)
    (context : DiagContext) : String :=
  let sla_ms : ℚ := context.sla_ms.getD 500
  let overall := jmeter_stats.overall_stats
  let p95 : ℚ := (overall.map (·.p95_ms)).getD 0
  let error_rate : ℚ := (overall.map (·.error_rate_pct)).getD 0
  let gc_overhead : ℚ := (jvm_stats.gc_summary.map (·.gc_overhead_pct)).getD 0
  let max_pause : ℚ := (jvm_stats.gc_summary.map (·.max_pause_ms)).getD 0
  let cpu_flag : String := if jvm_stats.cpu_flag = "" then "unknown" else jvm_stats.cpu_flag
  let plateau : Bool := computePlateau jmeter_stats.time_series
  let c0 : String := "INCONCLUSIVE"
  let c1 : String := if gc_overhead ≥ 12 ∨ max_pause ≥ 300 then "GC_HEAVY" else c0
  let c2 : String := if cpu_flag = "high" ∧ (plateau = true ∨ p95 > sla_ms) then "CPU_BOUND" else c1
  let c3 : String :=
    if c2 = "INCONCLUSIVE" then
      if p95 > sla_ms ∨ error_rate > 1 then
        if gc_overhead ≥ 8 ∨ max_pause ≥ 150 then "GC_HEAVY"
        else if cpu_flag = "high" then "CPU_BOUND"
        else "LATENCY_OTHER"
      else c2
    else c2
  if c3 = "INCONCLUSIVE" ∧ error_rate > 1 then "LATENCY_OTHER" else c3

/-- The in-memory store of `_FallbackInMemorySessionService`:
`session_id -> {key: value}`, as insertion-ordered association lists. -/
abbrev SessionStore (α : Type) := List (String × List (String × α))

/-- Update one key of an association list in place (`d[k] = v`). -/
def dictSet {α : Type} (d : List (String × α)) (k : String) (v : α) : List (String × α) :=
  match d with
  | [] => [(k, v)]
  | (k', v') :: rest => if k' = k then (k, v) :: rest else (k', v') :: dictSet rest k v

/-- Lookup one key of an association list (`d.get(k)`). -/
def dictGet? {α : Type} (d : List (String × α)) (k : String) : Option α :=
  match d with
  | [] => none
  | (k', v') :: rest => if k' = k then some v' else dictGet? rest k

/-- Embeds `_FallbackInMemorySessionService.put` (create the per-session
dict if needed, then set the key). -/
def svcPut {α : Type} (st : SessionStore α) (session_id key : String) (v : α) :
    SessionStore α :=
  match dictGet? st session_id with
  | none => dictSet st session_id [(key, v)]
  | some d => dictSet st session_id (dictSet d key v)

/-- Embeds `_FallbackInMemorySessionService.get`
(`self._store.get(session_id, {}).get(key)`). -/
def svcGet? {α : Type} (st : SessionStore α) (session_id key : String) : Option α :=
  match dictGet? st session_id with
  | none => none
  | some d => dictGet? d key

/-- Embeds `save_run_summary` via the fallback service's `put` (the
`hasattr(svc, "put")` branch): stores under the fixed key
`"last_summary"`. -/
def save_run_summary {α : Type} (st : SessionStore α) (session_id : String) (summary : α) :
    SessionStore α :=
  svcPut st session_id "last_summary" summary

/-- Embeds `load_previous_run_summary` via the fallback service's `get`. -/
def load_previous_run_summary {α : Type} (st : SessionStore α) (session_id : String) :
    Option α :=
  svcGet? st session_id "last_summary"

/-- Load-test statistics for the rule-precedence counterexample: p95 600 ms
exceeds the default SLA of 500 ms, no plateau, no errors. -/
def jmC1 : JmeterResult :=
  { overall_stats := some
      { count := 1
        avg_ms := 600
        p95_ms := 600
        p99_ms := 600
        error_rate_pct := 0
        throughput_tps := 0 }
    time_series := [] }

/-- Telemetry summaries for the rule-precedence counterexample:
`gc_overhead_pct = 15` (rule 1 fires), `max_pause_ms = 50`, CPU high. -/
def jvmC1 : DiagJvmStats :=
  { gc_summary := some
      { total_gc_count := 1
        total_pause_ms := 100
        max_pause_ms := 50
        gc_overhead_pct := 15
        test_duration_s := 10 }
    cpu_flag := "high" }

/-- Telemetry summaries with rule 1 firing and a low CPU flag. -/
def jvmC1low : DiagJvmStats :=
  { jvmC1 with cpu_flag := "low" }

/-- A context with no SLA override (the 500 ms default applies). -/
def ctxNone : DiagContext := { sla_ms := none }

/-- The telemetry of end-to-end scenario 2 exactly as the claim declares it:
`test_start_ms = 0`, `test_end_ms = 1000`, two GC events with pauses 150 and
200 and no timestamps. -/
def jvmC2in : JvmInput :=
  { test_start_ms := some 0
    start_ms := none
    test_end_ms := some 1000
    end_ms := none
    gc_events := [⟨none, some 150, none, none⟩, ⟨none, some 200, none, none⟩]
    total_gc_count := none
    heap_samples := []
    cpu := .absent }

/-- Scenario 2 shifted so that the declared start is nonzero (truthy):
`test_start_ms = 1000`, `test_end_ms = 2000`, same GC events. -/
def jvmC2fix : JvmInput :=
  { jvmC2in with
    test_start_ms := some 1000
    test_end_ms := some 2000 }

/-- Load-test statistics with `p95_ms = 100 ≤` the default SLA. -/
def jmC2 : JmeterResult :=
  { overall_stats := some
      { count := 5
        avg_ms := 100
        p95_ms := 100
        p99_ms := 100
        error_rate_pct := 0
        throughput_tps := 0 }
    time_series := [] }

/-- The telemetry for the C8 rounding counterexample: a 3-second declared
run with a single 1 ms pause. -/
def jvmC8 : JvmInput :=
  { test_start_ms := some 1000
    start_ms := none
    test_end_ms := some 4000
    end_ms := none
    gc_events := [⟨none, some 1, none, none⟩]
    total_gc_count := none
    heap_samples := []
    cpu := .absent }

/-- Telemetry whose cpu section declares a present, parseable
`system_pct` reading of 0 (and no other cpu keys). -/
def jvmC5 : JvmInput :=
  { test_start_ms := none
    start_ms := none
    test_end_ms := none
    end_ms := none
    gc_events := []
    total_gc_count := none
    heap_samples := []
    cpu := .dict (some (.num 0)) none none }

deriving instance DecidableEq for Except

/-- The two-row CSV for the throughput counterexample: timestamps 0 and
500 ms (span 0.5 s), two samples. -/
def csvC3 : String := "timeStamp,elapsed\n0,100\n500,200\n"

theorem roundHalfEven_intCast (n : ℤ) : roundHalfEven (n : ℚ) = n := by
  simp [roundHalfEven]

theorem round3_eq_self {x : ℚ} (n : ℤ) (h : x * 1000 = (n : ℚ)) : round3 x = x := by
  unfold round3
  rw [h, roundHalfEven_intCast, ← h]
  field_simp

theorem dictGet?_dictSet_self {α : Type} (d : List (String × α)) (k : String) (v : α) :
    dictGet? (dictSet d k v) k = some v := by
  induction d with
  | nil => simp [dictSet, dictGet?]
  | cons hd tl ih =>
    obtain ⟨k', v'⟩ := hd
    by_cases h : k' = k
    · simp [dictSet, dictGet?, h]
    · simp [dictSet, dictGet?, h, ih]

theorem dictGet?_eq_none_of_not_mem {α : Type} (d : List (String × α)) (k : String)
    (h : k ∉ d.map Prod.fst) : dictGet? d k = none := by
  induction d with
  | nil => simp [dictGet?]
  | cons hd tl ih =>
    obtain ⟨k', v'⟩ := hd
    simp only [List.map_cons, List.mem_cons] at h
    push_neg at h
    simp [dictGet?, Ne.symm h.1, ih h.2]

theorem load_save_eq {α : Type} (st : SessionStore α) (s : String) (v : α) :
    load_previous_run_summary (save_run_summary st s v) s = some v := by
  unfold load_previous_run_summary save_run_summary svcGet? svcPut
  cases h : dictGet? st s with
  | none => simp [dictGet?_dictSet_self, dictGet?]
  | some d => simp [dictGet?_dictSet_self]

/-- C9: saving summary `A` then summary `B` under the same session id and
loading returns exactly `B` (unconditional overwrite, no merge), and
loading a session id that was never saved returns `none`. -/
theorem session_overwrite_and_absent {α : Type} (st : SessionStore α) (s : String) (A B : α) :
    load_previous_run_summary (save_run_summary (save_run_summary st s A) s B) s = some B
    ∧ ∀ (st' : SessionStore α) (sid : String), sid ∉ st'.map Prod.fst →
        load_previous_run_summary st' sid = none := by
  refine ⟨load_save_eq _ _ _, fun st' sid h => ?_⟩
  unfold load_previous_run_summary svcGet?
  rw [dictGet?_eq_none_of_not_mem st' sid h]

/-- C9 witness: concrete overwrite sequence and a concrete never-saved id. -/
theorem session_overwrite_and_absent_witness :
    load_previous_run_summary
        (save_run_summary (save_run_summary ([] : SessionStore ℕ) "s1" 1) "s1" 2) "s1" = some 2
    ∧ load_previous_run_summary ([("other", [("last_summary", (3 : ℕ))])] : SessionStore ℕ) "s1"
        = none := by
  refine ⟨(session_overwrite_and_absent ([] : SessionStore ℕ) "s1" 1 2).1, ?_⟩
  exact (session_overwrite_and_absent ([] : SessionStore ℕ) "s1" 1 2).2
    [("other", [("last_summary", (3 : ℕ))])] "s1" (by decide)

/-- C10: whitespace-only input yields the empty result without any error,
and the missing-elapsed-column error can only arise when at least one data
row beyond the header was read. -/
theorem parse_empty_text_ok_and_error_needs_rows :
    (∀ text : String, (∀ l ∈ (splitOnChar '\n' text.data).map String.mk, pyStrip l = "") →
      parse_jmeter_csv text = .ok { overall_stats := none, time_series := [] })
    ∧ (∀ (text e : String), parse_jmeter_csv text = .error e →
        2 ≤ (linesOf text).length) := by
  constructor
  · intro text h
    have hl : linesOf text = [] := by
      unfold linesOf
      rw [List.filter_eq_nil_iff]
      intro a ha
      simpa using h a ha
    unfold parse_jmeter_csv
    rw [hl]
  · intro text e herr
    unfold parse_jmeter_csv at herr
    cases hl : linesOf text with
    | nil => rw [hl] at herr; exact absurd herr (by simp)
    | cons hd rest =>
      rw [hl] at herr
      cases rest with
      | nil => simp [parse_rows] at herr
      | cons r2 rs => simp [List.length_cons]

/-- C10 witness: a concrete whitespace-only input and a concrete erroring
input with one data row. -/
theorem parse_empty_text_witness :
    parse_jmeter_csv "  \n \n" = .ok { overall_stats := none, time_series := [] }
    ∧ 2 ≤ (linesOf "foo,bar\n1,2\n").length := by
  constructor
  · exact parse_empty_text_ok_and_error_needs_rows.1 "  \n \n" (by decide)
  · exact parse_empty_text_ok_and_error_needs_rows.2 "foo,bar\n1,2\n"
      "Could not find 'elapsed' column in JMeter CSV" (by rfl)

theorem diagnose_gc_heavy_of_rule1_not_rule2 (jm : JmeterResult) (jvm : DiagJvmStats)
    (ctx : DiagContext)
    (h1 : (jvm.gc_summary.map (·.gc_overhead_pct)).getD 0 ≥ 12
        ∨ (jvm.gc_summary.map (·.max_pause_ms)).getD 0 ≥ 300)
    (h2 : ¬ ((if jvm.cpu_flag = "" then "unknown" else jvm.cpu_flag) = "high"
        ∧ (computePlateau jm.time_series = true
           ∨ (jm.overall_stats.map (·.p95_ms)).getD 0 > ctx.sla_ms.getD 500))) :
    diagnose_performance jm jvm ctx = "GC_HEAVY" := by
  unfold diagnose_performance
  simp only []
  rw [if_pos h1, if_neg h2, if_neg (by decide : ¬("GC_HEAVY" : String) = "INCONCLUSIVE")]
  rw [if_neg (by simp : ¬(("GC_HEAVY" : String) = "INCONCLUSIVE"
    ∧ (jm.overall_stats.map (·.error_rate_pct)).getD 0 > 1))]

/-- C1 counterexample: an input where rule 1 fires (`gc_overhead_pct = 15 ≥ 12`)
and the rule-2 condition also holds (CPU high, p95 600 > SLA 500); the code
returns `CPU_BOUND`, not `GC_HEAVY` — rule 2 overwrites rule 1's assignment
because it is not guarded by "classification still unset". -/
theorem rule2_overrides_rule1_cx :
    ((15 : ℚ) ≥ 12 ∨ (50 : ℚ) ≥ 300)
    ∧ diagnose_performance jmC1 jvmC1 { sla_ms := none } = "CPU_BOUND"
    ∧ ("CPU_BOUND" : String) ≠ "GC_HEAVY" := by
  refine ⟨Or.inl (by norm_num), by decide, by decide⟩

/-- C1 (amended): whenever rule 1 fires and the rule-2 condition
(`cpu_flag = high` and (plateau or p95 > sla_ms)) does NOT hold, the
classification is `GC_HEAVY`; when both hold, rule 2 overwrites rule 1. -/
theorem rule1_gc_heavy_unless_rule2 (jm : JmeterResult) (jvm : DiagJvmStats)
    (ctx : DiagContext)
    (h1 : (jvm.gc_summary.map (·.gc_overhead_pct)).getD 0 ≥ 12
        ∨ (jvm.gc_summary.map (·.max_pause_ms)).getD 0 ≥ 300)
    (h2 : ¬ ((if jvm.cpu_flag = "" then "unknown" else jvm.cpu_flag) = "high"
        ∧ (computePlateau jm.time_series = true
           ∨ (jm.overall_stats.map (·.p95_ms)).getD 0 > ctx.sla_ms.getD 500))) :
    diagnose_performance jm jvm ctx = "GC_HEAVY" :=
  diagnose_gc_heavy_of_rule1_not_rule2 jm jvm ctx h1 h2

/-- C1 witness: rule 1 fires, rule-2 condition fails (CPU low), result is
`GC_HEAVY`. -/
theorem rule1_gc_heavy_unless_rule2_witness :
    ((jvmC1low.gc_summary.map (·.gc_overhead_pct)).getD 0 ≥ 12
      ∨ (jvmC1low.gc_summary.map (·.max_pause_ms)).getD 0 ≥ 300)
    ∧ ¬ ((if jvmC1low.cpu_flag = "" then "unknown" else jvmC1low.cpu_flag) = "high"
        ∧ (computePlateau jmC1.time_series = true
           ∨ (jmC1.overall_stats.map (·.p95_ms)).getD 0 > ctxNone.sla_ms.getD 500))
    ∧ diagnose_performance jmC1 jvmC1low ctxNone = "GC_HEAVY" :=
  ⟨by decide, by decide,
    rule1_gc_heavy_unless_rule2 jmC1 jvmC1low ctxNone (by decide) (by decide)⟩

set_option maxRecDepth 10000 in
/-- C2 counterexample: on the scenario's literal input (`test_start_ms = 0`)
the truthiness guard `if start_ms and end_ms and end_ms > start_ms` treats
the zero start as absent, so the declared duration is NOT used:
`test_duration_s = 0` (claim says 1.0) and `gc_overhead_pct = 0` (claim says
35.0), and with load stats whose p95 is within the SLA the classification is
`INCONCLUSIVE`, not `GC_HEAVY`.  (Pause totals still match the claim.) -/
theorem scenario2_start_zero_cx :
    (parse_jvm_stats jvmC2in).gc_summary.total_pause_ms = 350
    ∧ (parse_jvm_stats jvmC2in).gc_summary.max_pause_ms = 200
    ∧ (parse_jvm_stats jvmC2in).gc_summary.test_duration_s = 0
    ∧ (parse_jvm_stats jvmC2in).gc_summary.gc_overhead_pct = 0
    ∧ ((0 : ℚ) ≠ 1) ∧ ((0 : ℚ) ≠ 35)
    ∧ (jmC2.overall_stats.map (·.p95_ms)).getD 0 ≤ ctxNone.sla_ms.getD 500
    ∧ diagnose_performance jmC2
        ⟨some (parse_jvm_stats jvmC2in).gc_summary, (parse_jvm_stats jvmC2in).cpu_flag⟩
        ctxNone = "INCONCLUSIVE"
    ∧ ("INCONCLUSIVE" : String) ≠ "GC_HEAVY" := by
  with_unfolding_all decide

set_option maxRecDepth 10000 in
/-- C2 (amended): with a truthy declared start (scenario shifted to
`test_start_ms = 1000`, `test_end_ms = 2000`), the parser returns
`total_pause_ms = 350`, `max_pause_ms = 200`, `test_duration_s = 1`,
`gc_overhead_pct = 35`, and combined with any load-test stats whose p95 is
within the SLA the classification is `GC_HEAVY`. -/
theorem scenario2_amended (jm : JmeterResult) (ctx : DiagContext)
    (hp95 : (jm.overall_stats.map (·.p95_ms)).getD 0 ≤ ctx.sla_ms.getD 500) :
    (parse_jvm_stats jvmC2fix).gc_summary =
      { total_gc_count := 2
        total_pause_ms := 350
        max_pause_ms := 200
        gc_overhead_pct := 35
        test_duration_s := 1 }
    ∧ diagnose_performance jm
        ⟨some (parse_jvm_stats jvmC2fix).gc_summary, (parse_jvm_stats jvmC2fix).cpu_flag⟩
        ctx = "GC_HEAVY" := by
  refine ⟨by with_unfolding_all decide, ?_⟩
  apply diagnose_gc_heavy_of_rule1_not_rule2
  · left
    rw [Option.map_some', Option.getD_some,
      (by with_unfolding_all decide :
        (parse_jvm_stats jvmC2fix).gc_summary.gc_overhead_pct = (35 : ℚ))]
    norm_num
  · intro hc
    exact absurd hc.1 (by with_unfolding_all decide)

set_option maxRecDepth 10000 in
/-- C2 witness: the amended scenario at concrete load stats with p95 100
within the 500 ms default SLA. -/
theorem scenario2_amended_witness :
    ((jmC2.overall_stats.map (·.p95_ms)).getD 0 ≤ ctxNone.sla_ms.getD 500)
    ∧ diagnose_performance jmC2
        ⟨some (parse_jvm_stats jvmC2fix).gc_summary, (parse_jvm_stats jvmC2fix).cpu_flag⟩
        ctxNone = "GC_HEAVY" :=
  ⟨by with_unfolding_all decide, (scenario2_amended jmC2 ctxNone (by with_unfolding_all decide)).2⟩

theorem durationOf_nonneg (d : JvmInput) : 0 ≤ durationOf d := by
  unfold durationOf
  simp only []
  split
  · rename_i h
    have h3 := h.2.2
    apply div_nonneg _ (by norm_num)
    exact_mod_cast (by omega :
      (0 : ℤ) ≤ pyOrZ d.test_end_ms d.end_ms - pyOrZ d.test_start_ms d.start_ms)
  · split
    · exact le_refl 0
    · split
      · rename_i hgt
        apply div_nonneg _ (by norm_num)
        linarith
      · exact le_refl 0

set_option maxRecDepth 10000 in
/-- C8 counterexample: with duration 3 s and total pause 1 ms the code
stores `round(100*1/3000, 3) = 0.033`, which differs from the claim's exact
`100 × total_pause_ms / (test_duration_s × 1000) = 1/30`. -/
theorem gc_overhead_rounding_cx :
    (parse_jvm_stats jvmC8).gc_summary.test_duration_s = 3
    ∧ (parse_jvm_stats jvmC8).gc_summary.total_pause_ms = 1
    ∧ (parse_jvm_stats jvmC8).gc_summary.gc_overhead_pct = 33 / 1000
    ∧ (33 / 1000 : ℚ) ≠ 100 * 1 / (3 * 1000) := by
  with_unfolding_all decide

/-- C8 (amended): when the computed test duration is 0 the GC overhead is 0
(no division occurs); otherwise it is
`100 × total_pause / (duration × 1000)` rounded to three decimals. -/
theorem gc_overhead_of_duration (d : JvmInput) :
    (durationOf d = 0 → (parse_jvm_stats d).gc_summary.gc_overhead_pct = 0)
    ∧ (durationOf d ≠ 0 →
        (parse_jvm_stats d).gc_summary.gc_overhead_pct
          = round3 (100 * (d.gc_events.filterMap eventPause?).sum / (durationOf d * 1000))) := by
  have hnn := durationOf_nonneg d
  constructor
  · intro h0
    unfold parse_jvm_stats gc_summary_of
    simp only []
    rw [if_neg (by rw [h0]; exact lt_irrefl 0)]
  · intro hne
    have hpos : 0 < durationOf d := lt_of_le_of_ne hnn (Ne.symm hne)
    unfold parse_jvm_stats gc_summary_of
    simp only []
    rw [if_pos hpos]
    congr 1
    ring

set_option maxRecDepth 10000 in
/-- C8 witness: both branches at concrete telemetry (`jvmC2in` has duration
0 and overhead 0; `jvmC8` has duration 3 and the rounded overhead). -/
theorem gc_overhead_of_duration_witness :
    (durationOf jvmC2in = 0 ∧ (parse_jvm_stats jvmC2in).gc_summary.gc_overhead_pct = 0)
    ∧ (durationOf jvmC8 ≠ 0
        ∧ (parse_jvm_stats jvmC8).gc_summary.gc_overhead_pct
            = round3 (100 * (jvmC8.gc_events.filterMap eventPause?).sum
                / (durationOf jvmC8 * 1000))) :=
  ⟨⟨by with_unfolding_all decide, (gc_overhead_of_duration jvmC2in).1 (by with_unfolding_all decide)⟩,
   ⟨by with_unfolding_all decide, (gc_overhead_of_duration jvmC8).2 (by with_unfolding_all decide)⟩⟩

/-- C5 counterexample: a present and parseable CPU reading of 0 (which is
`< 30`, so the claim requires `low`) yields `unknown`, because the
truthiness chain `cpu.get("system_pct") or cpu.get("process_pct") or
cpu.get("cpu_pct")` discards the falsy 0. -/
theorem cpu_zero_reading_cx :
    (parse_jvm_stats jvmC5).cpu_flag = "unknown"
    ∧ ((0 : ℚ) < 30)
    ∧ ("unknown" : String) ≠ "low" := by
  decide

/-- C5 (amended): the flag is determined solely by the CPU value the
falsy-coalescing key chain extracts (`cpuVal?`): low iff that value is
`< 30`, medium iff in `[30, 70)`, high iff `≥ 70`, and unknown exactly
when no value is extracted — i.e. the reading is absent, unparseable, or
dropped as falsy by the chain (such as `system_pct = 0`). -/
theorem cpu_flag_characterization (d : JvmInput) :
    ((parse_jvm_stats d).cpu_flag = "unknown" ↔ cpuVal? d.cpu = none)
    ∧ ((parse_jvm_stats d).cpu_flag = "low" ↔ ∃ v, cpuVal? d.cpu = some v ∧ v < 30)
    ∧ ((parse_jvm_stats d).cpu_flag = "medium" ↔
        ∃ v, cpuVal? d.cpu = some v ∧ 30 ≤ v ∧ v < 70)
    ∧ ((parse_jvm_stats d).cpu_flag = "high" ↔ ∃ v, cpuVal? d.cpu = some v ∧ 70 ≤ v) := by
  have hflag : (parse_jvm_stats d).cpu_flag = cpu_flag_of d.cpu := rfl
  rw [hflag]
  unfold cpu_flag_of
  cases h : cpuVal? d.cpu with
  | none => simp +decide
  | some v =>
    dsimp only
    by_cases h30 : v < 30
    · rw [if_pos h30]
      refine ⟨by simp +decide, ?_, ?_, ?_⟩
      · simp only [Option.some_inj]
        constructor
        · exact fun _ => ⟨v, rfl, h30⟩
        · exact fun _ => by trivial
      · simp only [Option.some_inj]
        constructor
        · intro hx; exact absurd hx (by decide)
        · rintro ⟨w, rfl, hw, -⟩; linarith
      · simp only [Option.some_inj]
        constructor
        · intro hx; exact absurd hx (by decide)
        · rintro ⟨w, rfl, hw⟩; linarith
    · by_cases h70 : v < 70
      · rw [if_neg h30, if_pos h70]
        refine ⟨by simp +decide, ?_, ?_, ?_⟩
        · simp only [Option.some_inj]
          constructor
          · intro hx; exact absurd hx (by decide)
          · rintro ⟨w, rfl, hw⟩; exact absurd hw h30
        · simp only [Option.some_inj]
          constructor
          · exact fun _ => ⟨v, rfl, le_of_not_lt h30, h70⟩
          · exact fun _ => by trivial
        · simp only [Option.some_inj]
          constructor
          · intro hx; exact absurd hx (by decide)
          · rintro ⟨w, rfl, hw⟩; linarith
      · rw [if_neg h30, if_neg h70]
        refine ⟨by simp +decide, ?_, ?_, ?_⟩
        · simp only [Option.some_inj]
          constructor
          · intro hx; exact absurd hx (by decide)
          · rintro ⟨w, rfl, hw⟩; exact absurd hw h30
        · simp only [Option.some_inj]
          constructor
          · intro hx; exact absurd hx (by decide)
          · rintro ⟨w, rfl, -, hw⟩; exact absurd hw h70
        · simp only [Option.some_inj]
          constructor
          · exact fun _ => ⟨v, rfl, le_of_not_lt h70⟩
          · exact fun _ => by trivial

/-- C5 witness: the characterization applied at a concrete medium reading. -/
theorem cpu_flag_characterization_witness :
    (parse_jvm_stats { jvmC5 with cpu := .dict none (some (.num 45)) none }).cpu_flag
      = "medium" :=
  ((cpu_flag_characterization
      { jvmC5 with cpu := .dict none (some (.num 45)) none }).2.2.1).2
    ⟨45, by decide, by norm_num, by norm_num⟩

set_option maxRecDepth 40000 in
/-- C3 counterexample: with 2 timestamped observations spanning 0.5 s the
code divides by `max(1.0, 0.5) = 1` and returns throughput 2.0, not the
claim's `count / ((max_ts - min_ts)/1000) = 4.0`. -/
theorem throughput_floor_cx :
    parse_jmeter_csv csvC3 = .ok
      { overall_stats := some
          { count := 2
            avg_ms := 150
            p95_ms := 195
            p99_ms := 199
            error_rate_pct := 0
            throughput_tps := 2 }
        time_series := [{ timestamp_ms := 0, tps := 1/5, p95_ms := 195, count := 2 }] }
    ∧ ((2 : ℚ) ≠ (2 : ℚ) / (((500 - 0 : ℤ) : ℚ) / 1000)) := by
  with_unfolding_all decide

theorem overallOf_throughput_eq (parsed : List ParsedObs) :
    (overallOf parsed).throughput_tps =
      if 1 < (parsed.filterMap (·.ts)).length then
        round3 (((parsed.map (·.elapsed)).length : ℚ) /
          max 1 (((pyMax 0 (parsed.filterMap (·.ts)) - pyMin 0 (parsed.filterMap (·.ts)) : ℤ) : ℚ) / 1000))
      else 0 := rfl

/-- C3 (amended): throughput_tps equals count divided by the span
`(max_ts - min_ts)/1000` seconds floored at 1.0 s (the code divides by
`max(1.0, span)`), rounded to 3 decimals, whenever at least 2 timestamped
observations exist; it is 0 otherwise. -/
theorem throughput_spec (parsed : List ParsedObs) :
    (1 < (parsed.filterMap (·.ts)).length →
      (overallOf parsed).throughput_tps
        = round3 ((parsed.length : ℚ) /
            max 1 (((pyMax 0 (parsed.filterMap (·.ts)) - pyMin 0 (parsed.filterMap (·.ts)) : ℤ) : ℚ) / 1000)))
    ∧ ((parsed.filterMap (·.ts)).length ≤ 1 → (overallOf parsed).throughput_tps = 0) := by
  constructor
  · intro h
    rw [overallOf_throughput_eq, if_pos h, List.length_map]
  · intro h
    rw [overallOf_throughput_eq, if_neg (not_lt.mpr h)]

/-- C3 witness: both branches at concrete observation lists. -/
theorem throughput_spec_witness :
    (1 < ([⟨some 0, 10, none⟩, ⟨some 500, 20, none⟩].filterMap (ParsedObs.ts)).length
      ∧ (overallOf [⟨some 0, 10, none⟩, ⟨some 500, 20, none⟩]).throughput_tps
          = round3 ((([⟨some 0, 10, none⟩, ⟨some 500, 20, none⟩] : List ParsedObs).length : ℚ) /
              max 1 (((pyMax 0 ([⟨some 0, 10, none⟩, ⟨some 500, 20, none⟩].filterMap (ParsedObs.ts))
                - pyMin 0 ([⟨some 0, 10, none⟩, ⟨some 500, 20, none⟩].filterMap (ParsedObs.ts)) : ℤ) : ℚ) / 1000)))
    ∧ (([⟨none, 10, none⟩].filterMap (ParsedObs.ts)).length ≤ 1
      ∧ (overallOf [⟨none, 10, none⟩]).throughput_tps = 0) :=
  ⟨⟨by decide, (throughput_spec [⟨some 0, 10, none⟩, ⟨some 500, 20, none⟩]).1 (by decide)⟩,
   ⟨by decide, (throughput_spec [⟨none, 10, none⟩]).2 (by decide)⟩⟩

/-- C4: a row whose elapsed cell fails to parse numerically is silently
skipped: the parsed-observation list equals that of the input without the
row, and parsing still succeeds with every aggregate computed from the
remaining rows only. -/
theorem bad_elapsed_row_skipped (header : List String) (rows₁ rows₂ : List CsvRow)
    (r : CsvRow) (ecol : String)
    (hcol : _choose_column header ["elapsed", "responsetime", "latency"] = some ecol)
    (hbad : rowElapsed? (cellOf header r ecol) = none) :
    parsedObsOf header ecol
        (_choose_column header ["timeStamp", "timestamp", "time_stamp", "time"])
        (_choose_column header ["success"]) (rows₁ ++ r :: rows₂)
      = parsedObsOf header ecol
        (_choose_column header ["timeStamp", "timestamp", "time_stamp", "time"])
        (_choose_column header ["success"]) (rows₁ ++ rows₂)
    ∧ parse_rows header (rows₁ ++ r :: rows₂)
      = .ok { overall_stats := some (overallOf (parsedObsOf header ecol
                (_choose_column header ["timeStamp", "timestamp", "time_stamp", "time"])
                (_choose_column header ["success"]) (rows₁ ++ rows₂)))
              time_series := timeSeriesOf (parsedObsOf header ecol
                (_choose_column header ["timeStamp", "timestamp", "time_stamp", "time"])
                (_choose_column header ["success"]) (rows₁ ++ rows₂)) } := by
  have hskip : ∀ tcol scol, parsedObsOf header ecol tcol scol (rows₁ ++ r :: rows₂)
      = parsedObsOf header ecol tcol scol (rows₁ ++ rows₂) := by
    intro tcol scol
    unfold parsedObsOf
    simp [List.filterMap_append, List.filterMap_cons, hbad]
  refine ⟨hskip _ _, ?_⟩
  unfold parse_rows
  rw [if_neg (by simp)]
  simp only [hcol]
  rw [hskip _ _]

/-- C4 witness: a concrete header and a concrete non-numeric elapsed row. -/
theorem bad_elapsed_row_skipped_witness :
    _choose_column ["elapsed"] ["elapsed", "responsetime", "latency"] = some "elapsed"
    ∧ rowElapsed? (cellOf ["elapsed"] [some "abc"] "elapsed") = none
    ∧ parse_rows ["elapsed"] ([] ++ [some "abc"] :: [[some "5"]])
      = .ok { overall_stats := some (overallOf (parsedObsOf ["elapsed"] "elapsed"
                (_choose_column ["elapsed"] ["timeStamp", "timestamp", "time_stamp", "time"])
                (_choose_column ["elapsed"] ["success"]) ([] ++ [[some "5"]])))
              time_series := timeSeriesOf (parsedObsOf ["elapsed"] "elapsed"
                (_choose_column ["elapsed"] ["timeStamp", "timestamp", "time_stamp", "time"])
                (_choose_column ["elapsed"] ["success"]) ([] ++ [[some "5"]])) } :=
  ⟨by decide, by decide,
   (bad_elapsed_row_skipped ["elapsed"] [] [[some "5"]] [some "abc"] "elapsed"
      (by decide) (by decide)).2⟩

theorem getD_zero_mem {l : List ℚ} (h : l ≠ []) : l.getD 0 0 ∈ l := by
  cases l with
  | nil => exact absurd rfl h
  | cons a t => exact List.mem_cons_self a t

theorem sorted_getD_zero_le {l : List ℚ} (h : l.Sorted (· ≤ ·)) :
    ∀ x ∈ l, l.getD 0 0 ≤ x := by
  cases l with
  | nil => intro x hx; exact absurd hx (List.not_mem_nil x)
  | cons a t =>
    intro x hx
    rcases List.mem_cons.mp hx with rfl | hxt
    · exact le_refl x
    · exact List.rel_of_sorted_cons h x hxt

theorem getD_last_mem {l : List ℚ} (h : l ≠ []) : l.getD (l.length - 1) 0 ∈ l := by
  induction l with
  | nil => exact absurd rfl h
  | cons a t ih =>
    cases t with
    | nil => exact List.mem_cons_self a []
    | cons b u =>
      have : (a :: b :: u).getD ((a :: b :: u).length - 1) 0
          = (b :: u).getD ((b :: u).length - 1) 0 := by
        simp [List.getD_cons_succ, List.length_cons]
      rw [this]
      exact List.mem_cons_of_mem a (ih (by simp))

theorem sorted_le_getD_last {l : List ℚ} (h : l.Sorted (· ≤ ·)) :
    ∀ x ∈ l, x ≤ l.getD (l.length - 1) 0 := by
  induction l with
  | nil => intro x hx; exact absurd hx (List.not_mem_nil x)
  | cons a t ih =>
    intro x hx
    cases t with
    | nil =>
      rcases List.mem_cons.mp hx with rfl | hxt
      · exact le_refl x
      · exact absurd hxt (List.not_mem_nil x)
    | cons b u =>
      have hgd : (a :: b :: u).getD ((a :: b :: u).length - 1) 0
          = (b :: u).getD ((b :: u).length - 1) 0 := by
        simp [List.getD_cons_succ, List.length_cons]
      rw [hgd]
      rcases List.mem_cons.mp hx with rfl | hxt
      · exact le_trans (List.rel_of_sorted_cons h _ (List.mem_cons_self b u))
          (ih h.of_cons _ (List.mem_cons_self b u))
      · exact ih h.of_cons x hxt

theorem percentile_eq_of_ne_nil (v : List ℚ) (hv : v ≠ []) (q : ℚ) :
    _percentile v q =
      if (⌊((v.length - 1 : ℕ) : ℚ) * (q / 100)⌋ : ℤ) = ⌈((v.length - 1 : ℕ) : ℚ) * (q / 100)⌉ then
        (v.insertionSort (· ≤ ·)).getD (pyTrunc (((v.length - 1 : ℕ) : ℚ) * (q / 100))).toNat 0
      else
        (v.insertionSort (· ≤ ·)).getD (⌊((v.length - 1 : ℕ) : ℚ) * (q / 100)⌋).toNat 0
          * ((⌈((v.length - 1 : ℕ) : ℚ) * (q / 100)⌉ : ℚ) - ((v.length - 1 : ℕ) : ℚ) * (q / 100))
        + (v.insertionSort (· ≤ ·)).getD (⌈((v.length - 1 : ℕ) : ℚ) * (q / 100)⌉).toNat 0
          * (((v.length - 1 : ℕ) : ℚ) * (q / 100) - (⌊((v.length - 1 : ℕ) : ℚ) * (q / 100)⌋ : ℚ)) := by
  unfold _percentile
  rw [if_neg hv]

theorem percentile_formula_of_nonneg (v : List ℚ) (hv : v ≠ []) (q : ℚ) (hq0 : 0 ≤ q) :
    _percentile v q =
      (v.insertionSort (· ≤ ·)).getD (⌊((v.length - 1 : ℕ) : ℚ) * (q / 100)⌋).toNat 0
      + ((v.insertionSort (· ≤ ·)).getD (⌈((v.length - 1 : ℕ) : ℚ) * (q / 100)⌉).toNat 0
         - (v.insertionSort (· ≤ ·)).getD (⌊((v.length - 1 : ℕ) : ℚ) * (q / 100)⌋).toNat 0)
        * (((v.length - 1 : ℕ) : ℚ) * (q / 100)
           - (⌊((v.length - 1 : ℕ) : ℚ) * (q / 100)⌋ : ℤ)) := by
  have hk0 : 0 ≤ ((v.length - 1 : ℕ) : ℚ) * (q / 100) :=
    mul_nonneg (Nat.cast_nonneg _) (by positivity)
  rw [percentile_eq_of_ne_nil v hv q]
  set k : ℚ := ((v.length - 1 : ℕ) : ℚ) * (q / 100) with hkdef
  by_cases hfc : (⌊k⌋ : ℤ) = ⌈k⌉
  · rw [if_pos hfc]
    have hkint : (⌊k⌋ : ℚ) = k :=
      le_antisymm (Int.floor_le k) (by rw [hfc]; exact Int.le_ceil k)
    have htr : pyTrunc k = ⌊k⌋ := by unfold pyTrunc; rw [if_pos hk0]
    rw [htr]
    have : k - (⌊k⌋ : ℚ) = 0 := by rw [hkint]; ring
    rw [this]
    ring
  · rw [if_neg hfc]
    have hceil : (⌈k⌉ : ℤ) = ⌊k⌋ + 1 := by
      have h1 := Int.ceil_le_floor_add_one k
      have h2 := Int.floor_le_ceil k
      omega
    rw [hceil]
    push_cast
    ring

/-- C6: the percentile function returns 0 on empty input for every q; on
non-empty input the 0th percentile is the minimum and the 100th the
maximum of the data, and for every q in [0,100] the result matches the
linear-interpolation formula `v[f] + (v[c]-v[f])*(k-f)` over the sorted
sequence with `k = (n-1)*q/100`, `f = floor k`, `c = ceil k`. -/
theorem percentile_spec :
    (∀ q : ℚ, _percentile [] q = 0)
    ∧ (∀ v : List ℚ, v ≠ [] →
        (_percentile v 0 ∈ v ∧ ∀ x ∈ v, _percentile v 0 ≤ x)
        ∧ (_percentile v 100 ∈ v ∧ ∀ x ∈ v, x ≤ _percentile v 100)
        ∧ (∀ q : ℚ, 0 ≤ q → q ≤ 100 →
            _percentile v q =
              (v.insertionSort (· ≤ ·)).getD (⌊((v.length - 1 : ℕ) : ℚ) * (q / 100)⌋).toNat 0
              + ((v.insertionSort (· ≤ ·)).getD (⌈((v.length - 1 : ℕ) : ℚ) * (q / 100)⌉).toNat 0
                 - (v.insertionSort (· ≤ ·)).getD (⌊((v.length - 1 : ℕ) : ℚ) * (q / 100)⌋).toNat 0)
                * (((v.length - 1 : ℕ) : ℚ) * (q / 100)
                   - (⌊((v.length - 1 : ℕ) : ℚ) * (q / 100)⌋ : ℤ)))) := by
  constructor
  · intro q
    unfold _percentile
    rw [if_pos rfl]
  · intro v hv
    have hperm : List.Perm (v.insertionSort (· ≤ ·)) v := List.perm_insertionSort _ v
    have hsorted : (v.insertionSort (· ≤ ·)).Sorted (· ≤ ·) := List.sorted_insertionSort _ v
    have hsne : v.insertionSort (· ≤ ·) ≠ [] := by
      intro hcon
      exact hv (List.eq_nil_of_length_eq_zero
        (by rw [← List.length_insertionSort (· ≤ ·) v, hcon]; rfl))
    refine ⟨?_, ?_, ?_⟩
    · have h0 : _percentile v 0 = (v.insertionSort (· ≤ ·)).getD 0 0 := by
        rw [percentile_formula_of_nonneg v hv 0 (le_refl 0)]
        norm_num
      rw [h0]
      exact ⟨hperm.subset (getD_zero_mem hsne),
        fun x hx => sorted_getD_zero_le hsorted x (hperm.mem_iff.mpr hx)⟩
    · have hk : ((v.length - 1 : ℕ) : ℚ) * ((100 : ℚ) / 100) = ((v.length - 1 : ℕ) : ℚ) := by
        norm_num
      have h100 : _percentile v 100
          = (v.insertionSort (· ≤ ·)).getD ((v.insertionSort (· ≤ ·)).length - 1) 0 := by
        rw [percentile_formula_of_nonneg v hv 100 (by norm_num), hk]
        rw [Int.floor_natCast, Int.ceil_natCast, Int.toNat_natCast]
        rw [List.length_insertionSort]
        push_cast
        ring
      rw [h100]
      exact ⟨hperm.subset (getD_last_mem hsne),
        fun x hx => sorted_le_getD_last hsorted x (hperm.mem_iff.mpr hx)⟩
    · intro q hq0 _
      exact percentile_formula_of_nonneg v hv q hq0

/-- C6 witness: the spec applied to the concrete data of end-to-end
scenario 1 (`[100,100,100,100,2000]`). -/
theorem percentile_spec_witness :
    _percentile [] 37 = 0
    ∧ (_percentile [100, 100, 100, 100, 2000] 0 ∈ ([100, 100, 100, 100, 2000] : List ℚ))
    ∧ _percentile [100, 100, 100, 100, 2000] 95 =
        (([100, 100, 100, 100, 2000] : List ℚ).insertionSort (· ≤ ·)).getD
            (⌊((([100, 100, 100, 100, 2000] : List ℚ).length - 1 : ℕ) : ℚ) * ((95 : ℚ) / 100)⌋).toNat 0
          + ((([100, 100, 100, 100, 2000] : List ℚ).insertionSort (· ≤ ·)).getD
                (⌈((([100, 100, 100, 100, 2000] : List ℚ).length - 1 : ℕ) : ℚ) * ((95 : ℚ) / 100)⌉).toNat 0
             - (([100, 100, 100, 100, 2000] : List ℚ).insertionSort (· ≤ ·)).getD
                (⌊((([100, 100, 100, 100, 2000] : List ℚ).length - 1 : ℕ) : ℚ) * ((95 : ℚ) / 100)⌋).toNat 0)
            * (((([100, 100, 100, 100, 2000] : List ℚ).length - 1 : ℕ) : ℚ) * ((95 : ℚ) / 100)
               - (⌊((([100, 100, 100, 100, 2000] : List ℚ).length - 1 : ℕ) : ℚ) * ((95 : ℚ) / 100)⌋ : ℤ)) :=
  ⟨percentile_spec.1 37,
   ((percentile_spec.2 [100, 100, 100, 100, 2000] (by decide)).1).1,
   ((percentile_spec.2 [100, 100, 100, 100, 2000] (by decide)).2.2) 95 (by norm_num) (by norm_num)⟩

theorem timeSeriesOf_map_timestamp (parsed : List ParsedObs) :
    (timeSeriesOf parsed).map (·.timestamp_ms) = bucketKeysOf parsed := by
  unfold timeSeriesOf
  rw [List.map_map]
  exact List.map_id _

theorem bucketKeysOf_sorted_lt (parsed : List ParsedObs) :
    (bucketKeysOf parsed).Sorted (· < ·) := by
  have hsort : (bucketKeysOf parsed).Sorted (· ≤ ·) := List.sorted_insertionSort _ _
  have hnodup : (bucketKeysOf parsed).Nodup :=
    ((List.perm_insertionSort _ _).nodup_iff).mpr (List.nodup_dedup _)
  exact hsort.lt_of_le hnodup

theorem mem_bucketKeysOf_iff (parsed : List ParsedObs) (b : ℤ) :
    b ∈ bucketKeysOf parsed ↔ b ∈ (parsed.filterMap (·.ts)).map bucketStart := by
  unfold bucketKeysOf
  rw [(List.perm_insertionSort _ _).mem_iff, List.mem_dedup]

theorem elapsed_mem_bucketVals {parsed : List ParsedObs} {p : ParsedObs} {ts : ℤ}
    (hp : p ∈ parsed) (hts : p.ts = some ts) :
    p.elapsed ∈ bucketVals parsed (bucketStart ts) := by
  unfold bucketVals
  refine List.mem_filterMap.mpr ⟨p, hp, ?_⟩
  rw [hts]
  simp

theorem bucketVals_ne_nil_of_mem_keys {parsed : List ParsedObs} {b : ℤ}
    (hb : b ∈ bucketKeysOf parsed) : bucketVals parsed b ≠ [] := by
  rw [mem_bucketKeysOf_iff] at hb
  obtain ⟨z, hz, rfl⟩ := List.mem_map.mp hb
  obtain ⟨p, hp, hts⟩ := List.mem_filterMap.mp hz
  exact List.ne_nil_of_mem (elapsed_mem_bucketVals hp hts)

/-- C7: the emitted time-bucket sequence is strictly increasing in bucket
start (hence duplicate-free); every emitted bucket is non-empty, carries
`count` equal to the size of its 10-second window, `tps = count/10` and the
window's own p95; and every observation with a known timestamp `ts` lands
in the emitted bucket starting at `floor(ts/10000)*10000` (so only empty
windows are omitted). -/
theorem time_buckets_spec (parsed : List ParsedObs) :
    ((timeSeriesOf parsed).map (·.timestamp_ms)).Sorted (· < ·)
    ∧ (∀ tb ∈ timeSeriesOf parsed,
        tb.count = (bucketVals parsed tb.timestamp_ms).length
        ∧ 1 ≤ tb.count
        ∧ tb.tps = (tb.count : ℚ) / 10
        ∧ tb.p95_ms = round3 (_percentile
            ((bucketVals parsed tb.timestamp_ms).insertionSort (· ≤ ·)) 95))
    ∧ (∀ p ∈ parsed, ∀ ts : ℤ, p.ts = some ts →
        (∃ tb ∈ timeSeriesOf parsed, tb.timestamp_ms = bucketStart ts)
        ∧ p.elapsed ∈ bucketVals parsed (bucketStart ts)) := by
  refine ⟨?_, ?_, ?_⟩
  · rw [timeSeriesOf_map_timestamp]
    exact bucketKeysOf_sorted_lt parsed
  · intro tb htb
    unfold timeSeriesOf at htb
    obtain ⟨b, hb, rfl⟩ := List.mem_map.mp htb
    have hne : bucketVals parsed b ≠ [] := bucketVals_ne_nil_of_mem_keys hb
    have hcnt : 1 ≤ (bucketVals parsed b).length := List.length_pos.mpr hne
    refine ⟨rfl, hcnt, ?_, ?_⟩
    · exact round3_eq_self ((bucketVals parsed b).length * 100) (by push_cast; ring)
    · have : (bucketVals parsed b).length ≠ 0 := by omega
      simp only [if_pos this]
  · intro p hp ts hts
    have hbk : bucketStart ts ∈ bucketKeysOf parsed := by
      rw [mem_bucketKeysOf_iff]
      exact List.mem_map.mpr ⟨ts, List.mem_filterMap.mpr ⟨p, hp, hts⟩, rfl⟩
    refine ⟨?_, elapsed_mem_bucketVals hp hts⟩
    refine ⟨_, List.mem_map.mpr ⟨bucketStart ts, hbk, rfl⟩, rfl⟩

/-- C7 witness: the bucket properties at a concrete observation list with
two populated windows and one observation lacking a timestamp. -/
theorem time_buckets_spec_witness :
    (((timeSeriesOf [⟨some 20000, 7, none⟩, ⟨some 3, 5, none⟩, ⟨none, 9, none⟩]).map
        (·.timestamp_ms)).Sorted (· < ·))
    ∧ ((⟨some 3, 5, none⟩ : ParsedObs)
        ∈ ([⟨some 20000, 7, none⟩, ⟨some 3, 5, none⟩, ⟨none, 9, none⟩] : List ParsedObs)
      ∧ (⟨some 3, 5, none⟩ : ParsedObs).ts = some 3
      ∧ (∃ tb ∈ timeSeriesOf [⟨some 20000, 7, none⟩, ⟨some 3, 5, none⟩, ⟨none, 9, none⟩],
          tb.timestamp_ms = bucketStart 3)
      ∧ (⟨some 3, 5, none⟩ : ParsedObs).elapsed
          ∈ bucketVals [⟨some 20000, 7, none⟩, ⟨some 3, 5, none⟩, ⟨none, 9, none⟩]
            (bucketStart 3)) :=
  ⟨(time_buckets_spec [⟨some 20000, 7, none⟩, ⟨some 3, 5, none⟩, ⟨none, 9, none⟩]).1,
   by decide, rfl,
   ((time_buckets_spec [⟨some 20000, 7, none⟩, ⟨some 3, 5, none⟩, ⟨none, 9, none⟩]).2.2
      ⟨some 3, 5, none⟩ (by decide) 3 rfl).1,
   ((time_buckets_spec [⟨some 20000, 7, none⟩, ⟨some 3, 5, none⟩, ⟨none, 9, none⟩]).2.2
      ⟨some 3, 5, none⟩ (by decide) 3 rfl).2⟩

end JvmPerf
